import Mathlib

/-!
Verification of `ci/jobs/docker_server_from_binary.py`: a CI job script
that stages a prebuilt binary into a Docker build context, optionally
logs in to the registry, runs one `docker buildx build` command, and
reports the outcome through the praktika result library.

The script is embedded as a trace semantics: running the program over an
environment (the exit codes of the external commands and the fetched
credential) yields the ordered list of external actions performed
(`Event`) together with the process outcome (`Outcome`).
-/

set_option maxRecDepth 20000

namespace DockerServerFromBinary

/-- A result entry as produced by `Result.from_commands_run`:
the entry's name, the command it ran, whether the command exited 0,
and whether a log was captured (`with_log`). -/
structure ResultEntry where
  name : String
  command : String
  ok : Bool
  with_log : Bool
  deriving DecidableEq, Repr

/-- One observable external action of the script.

* `shellCheck cmd strict stdinStr` — a `Shell.check` invocation with the
  given command string, strict flag, and optional string piped to the
  command's standard input (`stdin_str`).
* `resultRun name cmd withLog` — a `Result.from_commands_run` invocation:
  the named command is executed and captured into a result entry.
* `completeJob entries` — the final
  `Result.create_from(results=...).complete_job()` call handing the
  accumulated result entries to the reporter. -/
inductive Event where
  | shellCheck (cmd : String) (strict : Bool) (stdinStr : Option String)
  | resultRun (name : String) (cmd : String) (withLog : Bool)
  | completeJob (entries : List ResultEntry)
  deriving DecidableEq, Repr

/-- Environment of one run: exit codes of the external commands the
script may invoke, and the credential value the secret store returns. -/
structure Env where
  copyExit : Nat
  probeExit : Nat
  loginExit : Nat
  buildExit : Nat
  credential : String
  deriving DecidableEq, Repr

/-- Process outcome.

* `usageError code` — `argparse` rejected the invocation and exited
  with `code` before `main`'s body ran.
* `aborted code` — a strict `Shell.check` observed a non-zero exit and
  aborted the job with that failure.
* `finished entries` — the run reached the reporter, handing it
  `entries`. -/
inductive Outcome where
  | usageError (code : Nat)
  | aborted (code : Nat)
  | finished (entries : List ResultEntry)
  deriving DecidableEq, Repr

/-- The command line as handed to `argparse`: the value supplied to
`--tag-type` (if present), whether `--push` is present, and the value
supplied to `--os` (if present). -/
structure CmdLine where
  tagTypeArg : Option String
  pushFlag : Bool
  osArg : Option String
  deriving DecidableEq, Repr

/-- The `--os` value after parsing: `argparse` stores the default list
`["ubuntu", "alpine"]` when the flag is absent, and the raw string when
it is supplied. -/
inductive OsSetting where
  | defaultList (l : List String)
  | fromCli (s : String)
  deriving DecidableEq, Repr

/-- The parsed arguments (`argparse.Namespace`): `tag_type` (one of the
three choices, default `"head"`), `push` (`store_true`, default
`false`), `os`. -/
structure Args where
  tag_type : String
  push : Bool
  os : OsSetting
  deriving DecidableEq, Repr

/-- The `choices` tuple of `--tag-type`. -/
def tagTypeChoices : List String := ["head", "release", "release-latest"]

/-- The default of `--os`. -/
def osDefault : List String := ["ubuntu", "alpine"]

/-- `argparse`'s exit code on a usage error (e.g. an invalid choice). -/
def argparseUsageExit : Nat := 2

/-- `parse_args`: `--tag-type` defaults to `"head"` and is constrained
to `tagTypeChoices` (an invalid choice is a usage error), `--push` is a
presence flag, `--os` defaults to `osDefault`. -/
def parse_args (cl : CmdLine) : Except Nat Args :=
  let os := match cl.osArg with
    | none => OsSetting.defaultList osDefault
    | some s => OsSetting.fromCli s
  match cl.tagTypeArg with
  | none => .ok ⟨"head", cl.pushFlag, os⟩
  | some v =>
      if v ∈ tagTypeChoices then .ok ⟨v, cl.pushFlag, os⟩
      else .error argparseUsageExit

/-- `image_path` local of `main`. -/
def image_path : String := "./ci/docker/clickhouse-server"

/-- `image_repo` local of `main`. -/
def image_repo : String := "clickhouse/clickhouse-server"

/-- The artifact copy command `f"cp /tmp/praktika/input/clickhouse {image_path}/"`. -/
def copyCmd : String := "cp /tmp/praktika/input/clickhouse " ++ image_path ++ "/"

/-- The login-status probe command in `docker_login`. -/
def probeCmd : String := "docker system info | grep --quiet -E 'Username|Registry'"

/-- The login command in `docker_login`; the credential is supplied via
`stdin_str`, not in this string. -/
def loginCmd : String := "docker login --username 'robotclickhouse' --password-stdin"

/-- The run of 20 spaces that the backslash-continued f-string literal
carries over from each continuation line's indentation. -/
def contIndent : String := "                    "

/-- The build command constructed in `main` (the f-string spans four
source lines joined by backslash-newline continuations, so the
continuation lines' indentation is part of the string). -/
def buildCommand : String :=
  "docker buildx build --platform linux/arm64 " ++ contIndent
    ++ "-t " ++ image_repo ++ ":tmp " ++ image_path
    ++ " -f " ++ image_path ++ "/from_binary/Dockerfile.ubuntu " ++ contIndent
    ++ "--cache-from=type=local,src=/tmp/build-cache " ++ contIndent
    ++ "--cache-to=type=local,dest=/tmp/build-cache"

/-- The default of `docker_login`'s `relogin` parameter. -/
def docker_login_relogin_default : Bool := true

/-- `docker_login`: if `relogin` is true, the probe is short-circuited
away and the strict login command runs with the credential on standard
input; otherwise the probe runs first and the login only happens when
the probe fails. Returns the events performed and whether the function
returned normally (`false` means the strict login aborted the job).

The strict/non-strict behaviour of `Shell.check` is praktika code not
present under `src/`. Modelled from the spec: a strict invocation
aborts the job on any non-zero exit, a non-strict one returns whether
the exit code was zero. -/
def docker_login (relogin : Bool) (env : Env) : List Event × Bool :=
  let loginEv := Event.shellCheck loginCmd true (some env.credential)
  if relogin then
    ([loginEv], env.loginExit == 0)
  else
    let probeEv := Event.shellCheck probeCmd false none
    if env.probeExit == 0 then
      ([probeEv], true)
    else
      ([probeEv, loginEv], env.loginExit == 0)

/-- `Result.from_commands_run(name=..., command=..., with_log=True)`.
Modelled from the spec: the praktika result helper (not under `src/`)
runs the command, captures its log, and records success iff the exit
code is zero, without raising on failure. -/
def from_commands_run (name : String) (command : String) (withLog : Bool)
    (exitCode : Nat) : ResultEntry :=
  ⟨name, command, exitCode == 0, withLog⟩

/-- `Result.create_from(results=...).complete_job()`'s verdict.
Modelled from the spec: the reporter (praktika code not under `src/`)
determines the job's overall pass/fail from the recorded entries —
the job passes iff every recorded entry succeeded. -/
def complete_job_verdict (entries : List ResultEntry) : Bool :=
  entries.all (fun e => e.ok)

/-- The body of `main` after argument parsing: strict copy, conditional
login, one recorded build command, finalisation. -/
def mainRun (args : Args) (env : Env) : List Event × Outcome :=
  let copyEv := Event.shellCheck copyCmd true none
  if env.copyExit != 0 then
    ([copyEv], .aborted env.copyExit)
  else
    let loginStep :=
      if args.push then docker_login docker_login_relogin_default env
      else ([], true)
    if !loginStep.2 then
      (copyEv :: loginStep.1, .aborted env.loginExit)
    else
      let entry := from_commands_run (image_repo ++ ":tmp") buildCommand true
        env.buildExit
      (copyEv :: loginStep.1
          ++ [Event.resultRun (image_repo ++ ":tmp") buildCommand true,
              Event.completeJob [entry]],
        .finished [entry])

/-- The whole program: `argparse` first; a usage error exits before any
external action. -/
def runProgram (cl : CmdLine) (env : Env) : List Event × Outcome :=
  match parse_args cl with
  | .error code => ([], .usageError code)
  | .ok args => mainRun args env

/-- Is this event an issued docker login command? -/
def Event.isLogin : Event → Bool
  | .shellCheck c _ _ => c == loginCmd
  | _ => false

/-- Is this event the login-status probe? -/
def Event.isProbe : Event → Bool
  | .shellCheck c _ _ => c == probeCmd
  | _ => false

/-- Is this event the artifact copy command? -/
def Event.isCopy : Event → Bool
  | .shellCheck c _ _ => c == copyCmd
  | _ => false

/-- Is this event the recorded build-command execution? -/
def Event.isBuild : Event → Bool
  | .resultRun _ _ _ => true
  | _ => false

/-- View of an event with the standard-input channel erased: what an
observer of process listings (command strings) sees. -/
def Event.cmdView : Event → Event
  | .shellCheck c s _ => .shellCheck c s none
  | e => e

lemma parse_args_push (cl : CmdLine) (args : Args)
    (h : parse_args cl = .ok args) : args.push = cl.pushFlag := by
  rcases cl with ⟨t, p, o⟩
  cases t with
  | none =>
      simp [parse_args] at h
      simp [← h]
  | some v =>
      by_cases hv : v ∈ tagTypeChoices <;> simp [parse_args, hv] at h
      simp [← h]

lemma runProgram_eq_mainRun (cl : CmdLine) (env : Env) (args : Args)
    (h : parse_args cl = .ok args) : runProgram cl env = mainRun args env := by
  simp [runProgram, h]

lemma mainRun_copy_fail (args : Args) (env : Env) (h : env.copyExit ≠ 0) :
    mainRun args env
      = ([Event.shellCheck copyCmd true none], .aborted env.copyExit) := by
  have hb : (env.copyExit != 0) = true := by simpa [bne_iff_ne] using h
  simp [mainRun, hb]

lemma mainRun_login_fail (args : Args) (env : Env) (hcopy : env.copyExit = 0)
    (hpush : args.push = true) (hlogin : env.loginExit ≠ 0) :
    mainRun args env
      = ([Event.shellCheck copyCmd true none,
          Event.shellCheck loginCmd true (some env.credential)],
         .aborted env.loginExit) := by
  have hb : (env.loginExit == 0) = false := by simpa using hlogin
  simp [mainRun, docker_login, docker_login_relogin_default, hcopy, hpush, hb]

lemma mainRun_ok (args : Args) (env : Env) (hcopy : env.copyExit = 0)
    (hlogin : args.push = true → env.loginExit = 0) :
    mainRun args env
      = (Event.shellCheck copyCmd true none ::
          (if args.push then
            [Event.shellCheck loginCmd true (some env.credential)] else [])
          ++ [Event.resultRun (image_repo ++ ":tmp") buildCommand true,
              Event.completeJob
                [⟨image_repo ++ ":tmp", buildCommand, env.buildExit == 0, true⟩]],
         .finished
           [⟨image_repo ++ ":tmp", buildCommand, env.buildExit == 0, true⟩]) := by
  cases hp : args.push with
  | false =>
      simp [mainRun, from_commands_run, hcopy, hp]
  | true =>
      have hl : (env.loginExit == 0) = true := by simpa using hlogin hp
      simp [mainRun, docker_login, docker_login_relogin_default,
        from_commands_run, hcopy, hp, hl]

/-- C1: for every accepted invocation whose strict commands succeed, the
recorded build command is the single fixed string `buildCommand`,
targeting the image reference `clickhouse/clickhouse-server:tmp` — the
right-hand side mentions neither the parsed `--tag-type` value nor the
parsed `--os` value (nor anything else from the command line or the
environment), so neither flag alters the platform, tag, Dockerfile path,
or cache arguments of the emitted build command. -/
theorem build_command_fixed (cl : CmdLine) (env : Env) (args : Args)
    (hargs : parse_args cl = .ok args)
    (hcopy : env.copyExit = 0) (hlogin : env.loginExit = 0) :
    (runProgram cl env).1.filter Event.isBuild
      = [Event.resultRun "clickhouse/clickhouse-server:tmp" buildCommand true]
    ∧ ∃ pre post,
        buildCommand = pre ++ "-t clickhouse/clickhouse-server:tmp " ++ post := by
  rw [runProgram_eq_mainRun cl env args hargs,
    mainRun_ok args env hcopy (fun _ => hlogin)]
  constructor
  · cases hp : args.push <;>
      simp [Event.isBuild, image_repo, List.filter]
  · exact ⟨"docker buildx build --platform linux/arm64 " ++ contIndent,
      image_path ++ " -f " ++ image_path ++ "/from_binary/Dockerfile.ubuntu "
        ++ contIndent ++ "--cache-from=type=local,src=/tmp/build-cache "
        ++ contIndent ++ "--cache-to=type=local,dest=/tmp/build-cache",
      by decide⟩

/-- Witness for `build_command_fixed` at a concrete invocation
(`--tag-type release --os alpine`, all commands succeeding). -/
theorem build_command_fixed_witness :
    (runProgram ⟨some "release", false, some "alpine"⟩
        ⟨0, 0, 0, 0, "pw"⟩).1.filter Event.isBuild
      = [Event.resultRun "clickhouse/clickhouse-server:tmp" buildCommand true]
    ∧ ∃ pre post,
        buildCommand = pre ++ "-t clickhouse/clickhouse-server:tmp " ++ post :=
  build_command_fixed ⟨some "release", false, some "alpine"⟩
    ⟨0, 0, 0, 0, "pw"⟩ ⟨"release", false, .fromCli "alpine"⟩ rfl rfl rfl

/-- C2: an invocation whose `--tag-type` value is outside
{head, release, release-latest} is rejected by the argument parser with
a non-zero exit, and no external action at all is performed (no copy,
no login, no build). -/
theorem invalid_tag_type_rejected (cl : CmdLine) (env : Env) (v : String)
    (hv : cl.tagTypeArg = some v) (hnot : v ∉ tagTypeChoices) :
    runProgram cl env = ([], .usageError argparseUsageExit)
    ∧ argparseUsageExit ≠ 0 := by
  refine ⟨?_, by decide⟩
  simp [runProgram, parse_args, hv, hnot]

/-- Witness for `invalid_tag_type_rejected` at `--tag-type nightly`. -/
theorem invalid_tag_type_rejected_witness :
    runProgram ⟨some "nightly", true, none⟩ ⟨0, 0, 0, 0, "pw"⟩
      = ([], .usageError argparseUsageExit)
    ∧ argparseUsageExit ≠ 0 :=
  invalid_tag_type_rejected ⟨some "nightly", true, none⟩ ⟨0, 0, 0, 0, "pw"⟩
    "nightly" rfl (by decide)

/-- C3: when `--push` is absent, no docker login command is issued at
any point of the run (the registry authenticator is never invoked). -/
theorem no_push_no_login (cl : CmdLine) (env : Env)
    (hp : cl.pushFlag = false) :
    (runProgram cl env).1.all (fun e => !e.isLogin) = true := by
  cases h : parse_args cl with
  | error code => simp [runProgram, h]
  | ok args =>
      have hpush : args.push = false := (parse_args_push cl args h).trans hp
      rw [runProgram_eq_mainRun cl env args h]
      by_cases hc : env.copyExit = 0
      · rw [mainRun_ok args env hc (fun ht => absurd (hpush ▸ ht) (by simp))]
        simp [hpush, Event.isLogin] <;> decide
      · rw [mainRun_copy_fail args env hc]
        simp [Event.isLogin] <;> decide

/-- Witness for `no_push_no_login`: the default invocation (no flags). -/
theorem no_push_no_login_witness :
    (runProgram ⟨none, false, none⟩ ⟨0, 0, 0, 0, "pw"⟩).1.all
      (fun e => !e.isLogin) = true :=
  no_push_no_login ⟨none, false, none⟩ ⟨0, 0, 0, 0, "pw"⟩ rfl

/-- C4: when `--push` is present, any executed build command is
strictly preceded in the run's trace by a login attempt. -/
theorem push_login_precedes_build (cl : CmdLine) (env : Env)
    (hp : cl.pushFlag = true) (j : Nat) (e : Event)
    (hj : (runProgram cl env).1.get? j = some e) (hb : e.isBuild = true) :
    ∃ i e', i < j ∧ (runProgram cl env).1.get? i = some e'
      ∧ e'.isLogin = true := by
  cases h : parse_args cl with
  | error code => simp [runProgram, h] at hj
  | ok args =>
      have hpush : args.push = true := (parse_args_push cl args h).trans hp
      rw [runProgram_eq_mainRun cl env args h] at hj ⊢
      by_cases hc : env.copyExit = 0
      · by_cases hl : env.loginExit = 0
        · rw [mainRun_ok args env hc (fun _ => hl)] at hj ⊢
          rw [hpush] at hj ⊢
          rcases j with _ | _ | _ | _ | j
          · simp at hj
            simp [← hj, Event.isBuild] at hb
          · simp at hj
            simp [← hj, Event.isBuild] at hb
          · exact ⟨1, Event.shellCheck loginCmd true (some env.credential),
              by omega, by simp, by simp [Event.isLogin]⟩
          · simp at hj
            simp [← hj, Event.isBuild] at hb
          · simp [List.get?] at hj
        · rw [mainRun_login_fail args env hc hpush hl] at hj
          rcases j with _ | _ | j
          · simp at hj
            simp [← hj, Event.isBuild] at hb
          · simp at hj
            simp [← hj, Event.isBuild] at hb
          · simp [List.get?] at hj
      · rw [mainRun_copy_fail args env hc] at hj
        rcases j with _ | j
        · simp at hj
          simp [← hj, Event.isBuild] at hb
        · simp [List.get?] at hj

/-- Witness for `push_login_precedes_build`: `--push` with all commands
succeeding; the build event sits at index 2 of the trace. -/
theorem push_login_precedes_build_witness :
    ∃ i e', i < 2
      ∧ (runProgram ⟨none, true, none⟩ ⟨0, 0, 0, 0, "pw"⟩).1.get? i = some e'
      ∧ e'.isLogin = true :=
  push_login_precedes_build ⟨none, true, none⟩ ⟨0, 0, 0, 0, "pw"⟩ rfl 2
    (Event.resultRun "clickhouse/clickhouse-server:tmp" buildCommand true)
    (by simp [runProgram, parse_args, mainRun, docker_login,
      docker_login_relogin_default, from_commands_run, image_repo])
    rfl

/-- C5: for every accepted invocation the artifact copy command runs
exactly once, its command string copies `/tmp/praktika/input/clickhouse`
to `./ci/docker/clickhouse-server/`, and any executed build command is
strictly preceded in the trace by the copy. -/
theorem copy_once_before_build (cl : CmdLine) (env : Env) (args : Args)
    (hargs : parse_args cl = .ok args) :
    (runProgram cl env).1.countP (fun e => e.isCopy) = 1
    ∧ copyCmd = "cp /tmp/praktika/input/clickhouse ./ci/docker/clickhouse-server/"
    ∧ ∀ j e, (runProgram cl env).1.get? j = some e → e.isBuild = true →
        ∃ i e', i < j ∧ (runProgram cl env).1.get? i = some e'
          ∧ e'.isCopy = true := by
  rw [runProgram_eq_mainRun cl env args hargs]
  refine ⟨?_, by decide, ?_⟩
  · by_cases hc : env.copyExit = 0
    · by_cases hl : args.push = true → env.loginExit = 0
      · rw [mainRun_ok args env hc hl]
        cases hpush : args.push <;>
          simp [List.countP, List.countP.go, Event.isCopy] <;> decide
      · push_neg at hl
        rw [mainRun_login_fail args env hc hl.1 hl.2]
        simp [List.countP, List.countP.go, Event.isCopy] <;> decide
    · rw [mainRun_copy_fail args env hc]
      simp [List.countP, List.countP.go, Event.isCopy] <;> decide
  · intro j e hj hb
    by_cases hc : env.copyExit = 0
    · by_cases hl : args.push = true → env.loginExit = 0
      · rw [mainRun_ok args env hc hl] at hj ⊢
        cases hpush : args.push
        · rw [hpush] at hj
          rcases j with _ | _ | _ | j
          · simp at hj
            simp [← hj, Event.isBuild] at hb
          · exact ⟨0, Event.shellCheck copyCmd true none,
              by omega, by simp, by simp [Event.isCopy]⟩
          · simp at hj
            simp [← hj, Event.isBuild] at hb
          · simp [List.get?] at hj
        · rw [hpush] at hj
          rcases j with _ | _ | _ | _ | j
          · simp at hj
            simp [← hj, Event.isBuild] at hb
          · simp at hj
            simp [← hj, Event.isBuild] at hb
          · exact ⟨0, Event.shellCheck copyCmd true none,
              by omega, by simp, by simp [Event.isCopy]⟩
          · simp at hj
            simp [← hj, Event.isBuild] at hb
          · simp [List.get?] at hj
      · push_neg at hl
        rw [mainRun_login_fail args env hc hl.1 hl.2] at hj
        rcases j with _ | _ | j
        · simp at hj
          simp [← hj, Event.isBuild] at hb
        · simp at hj
          simp [← hj, Event.isBuild] at hb
        · simp [List.get?] at hj
    · rw [mainRun_copy_fail args env hc] at hj
      rcases j with _ | j
      · simp at hj
        simp [← hj, Event.isBuild] at hb
      · simp [List.get?] at hj

/-- Witness for `copy_once_before_build` at the default invocation. -/
theorem copy_once_before_build_witness :
    (runProgram ⟨none, false, none⟩ ⟨0, 0, 0, 0, "pw"⟩).1.countP
        (fun e => e.isCopy) = 1
    ∧ copyCmd = "cp /tmp/praktika/input/clickhouse ./ci/docker/clickhouse-server/"
    ∧ ∀ j e,
        (runProgram ⟨none, false, none⟩ ⟨0, 0, 0, 0, "pw"⟩).1.get? j = some e →
        e.isBuild = true →
        ∃ i e', i < j
          ∧ (runProgram ⟨none, false, none⟩ ⟨0, 0, 0, 0, "pw"⟩).1.get? i = some e'
          ∧ e'.isCopy = true :=
  copy_once_before_build ⟨none, false, none⟩ ⟨0, 0, 0, 0, "pw"⟩
    ⟨"head", false, .defaultList osDefault⟩ rfl

/-- C6: a non-zero exit of a strict command aborts the job immediately
with that failure. If the artifact copy fails, the trace is exactly the
one copy invocation (no retry, no login, no build, no finalisation) and
the outcome is abortion with the copy's exit code; if the login fails on
a push run, the trace is exactly the copy followed by the one login
invocation and the outcome is abortion with the login's exit code. -/
theorem strict_failure_aborts (cl : CmdLine) (env : Env) (args : Args)
    (hargs : parse_args cl = .ok args) :
    (env.copyExit ≠ 0 →
        runProgram cl env
          = ([Event.shellCheck copyCmd true none], .aborted env.copyExit))
    ∧ (env.copyExit = 0 → args.push = true → env.loginExit ≠ 0 →
        runProgram cl env
          = ([Event.shellCheck copyCmd true none,
              Event.shellCheck loginCmd true (some env.credential)],
             .aborted env.loginExit)) := by
  rw [runProgram_eq_mainRun cl env args hargs]
  exact ⟨fun h => mainRun_copy_fail args env h,
    fun hc hp hl => mainRun_login_fail args env hc hp hl⟩

/-- Witness for `strict_failure_aborts`: a push invocation whose copy
command exits with status 1. -/
theorem strict_failure_aborts_witness :
    ((⟨1, 0, 0, 0, "pw"⟩ : Env).copyExit ≠ 0 →
        runProgram ⟨none, true, none⟩ ⟨1, 0, 0, 0, "pw"⟩
          = ([Event.shellCheck copyCmd true none],
             .aborted (⟨1, 0, 0, 0, "pw"⟩ : Env).copyExit))
    ∧ ((⟨1, 0, 0, 0, "pw"⟩ : Env).copyExit = 0 →
        (⟨"head", true, .defaultList osDefault⟩ : Args).push = true →
        (⟨1, 0, 0, 0, "pw"⟩ : Env).loginExit ≠ 0 →
        runProgram ⟨none, true, none⟩ ⟨1, 0, 0, 0, "pw"⟩
          = ([Event.shellCheck copyCmd true none,
              Event.shellCheck loginCmd true
                (some (⟨1, 0, 0, 0, "pw"⟩ : Env).credential)],
             .aborted (⟨1, 0, 0, 0, "pw"⟩ : Env).loginExit)) :=
  strict_failure_aborts ⟨none, true, none⟩ ⟨1, 0, 0, 0, "pw"⟩
    ⟨"head", true, .defaultList osDefault⟩ rfl

/-- C7: a failing build command does not abort the run: it is captured
as a failed result entry with its log, the run still reaches the
finaliser with that entry, and the reporter's verdict over the recorded
entries is failure. -/
theorem build_failure_recorded (cl : CmdLine) (env : Env) (args : Args)
    (hargs : parse_args cl = .ok args) (hcopy : env.copyExit = 0)
    (hlogin : args.push = true → env.loginExit = 0)
    (hbuild : env.buildExit ≠ 0) :
    ∃ entry : ResultEntry,
      (runProgram cl env).2 = .finished [entry]
      ∧ entry.command = buildCommand
      ∧ entry.ok = false ∧ entry.with_log = true
      ∧ Event.completeJob [entry] ∈ (runProgram cl env).1
      ∧ complete_job_verdict [entry] = false := by
  rw [runProgram_eq_mainRun cl env args hargs, mainRun_ok args env hcopy hlogin]
  have hb : (env.buildExit == 0) = false := by simpa using hbuild
  refine ⟨⟨image_repo ++ ":tmp", buildCommand, env.buildExit == 0, true⟩,
    rfl, rfl, hb, rfl, ?_, by simp [complete_job_verdict, hb]⟩
  cases args.push <;> simp

/-- Witness for `build_failure_recorded`: default invocation, build
exits with status 1. -/
theorem build_failure_recorded_witness :
    ∃ entry : ResultEntry,
      (runProgram ⟨none, false, none⟩ ⟨0, 0, 0, 1, "pw"⟩).2 = .finished [entry]
      ∧ entry.command = buildCommand
      ∧ entry.ok = false ∧ entry.with_log = true
      ∧ Event.completeJob [entry]
          ∈ (runProgram ⟨none, false, none⟩ ⟨0, 0, 0, 1, "pw"⟩).1
      ∧ complete_job_verdict [entry] = false :=
  build_failure_recorded ⟨none, false, none⟩ ⟨0, 0, 0, 1, "pw"⟩
    ⟨"head", false, .defaultList osDefault⟩ rfl rfl (fun h => by simp at h)
    (by decide)

/-- C8: every accepted invocation that reaches the finaliser hands it
exactly one result entry, named `clickhouse/clickhouse-server:tmp`, and
records exactly one command run. -/
theorem one_result_entry (cl : CmdLine) (env : Env) (args : Args)
    (hargs : parse_args cl = .ok args) (hcopy : env.copyExit = 0)
    (hlogin : args.push = true → env.loginExit = 0) :
    ∃ entry : ResultEntry,
      (runProgram cl env).2 = .finished [entry]
      ∧ entry.name = "clickhouse/clickhouse-server:tmp"
      ∧ Event.completeJob [entry] ∈ (runProgram cl env).1
      ∧ (runProgram cl env).1.countP (fun e => e.isBuild) = 1 := by
  rw [runProgram_eq_mainRun cl env args hargs, mainRun_ok args env hcopy hlogin]
  refine ⟨⟨image_repo ++ ":tmp", buildCommand, env.buildExit == 0, true⟩,
    rfl, rfl, ?_, ?_⟩
  · cases args.push <;> simp
  · cases args.push <;>
      simp [List.countP, List.countP.go, Event.isBuild]

/-- Witness for `one_result_entry` at the default invocation with all
commands succeeding. -/
theorem one_result_entry_witness :
    ∃ entry : ResultEntry,
      (runProgram ⟨none, false, none⟩ ⟨0, 0, 0, 0, "pw"⟩).2 = .finished [entry]
      ∧ entry.name = "clickhouse/clickhouse-server:tmp"
      ∧ Event.completeJob [entry]
          ∈ (runProgram ⟨none, false, none⟩ ⟨0, 0, 0, 0, "pw"⟩).1
      ∧ (runProgram ⟨none, false, none⟩ ⟨0, 0, 0, 0, "pw"⟩).1.countP
          (fun e => e.isBuild) = 1 :=
  one_result_entry ⟨none, false, none⟩ ⟨0, 0, 0, 0, "pw"⟩
    ⟨"head", false, .defaultList osDefault⟩ rfl rfl (fun h => by simp at h)

/-- C9: the credential reaches the login command exclusively through
its standard input. Every issued login command is the fixed string
`loginCmd` run strictly with the credential as `stdin_str`; moreover the
sequence of command strings of a run (the `cmdView` of its trace, i.e.
everything but the standard-input channel) is the same for every
credential value, so no command string ever depends on — in particular
never interpolates — the credential. -/
theorem credential_only_on_stdin (cl : CmdLine) (env : Env) :
    (∀ e ∈ (runProgram cl env).1, e.isLogin = true →
        e = Event.shellCheck loginCmd true (some env.credential))
    ∧ ∀ c : String,
        (runProgram cl { env with credential := c }).1.map Event.cmdView
          = (runProgram cl env).1.map Event.cmdView := by
  constructor
  · intro e he hl
    cases h : parse_args cl with
    | error code => simp [runProgram, h] at he
    | ok args =>
        rw [runProgram_eq_mainRun cl env args h] at he
        by_cases hc : env.copyExit = 0
        · by_cases hlo : args.push = true → env.loginExit = 0
          · rw [mainRun_ok args env hc hlo] at he
            cases hp : args.push <;> rw [hp] at he <;> simp at he <;>
                rcases he with rfl | rfl | rfl | rfl
            · exact absurd hl (by decide)
            · simp [Event.isLogin] at hl
            · simp [Event.isLogin] at hl
            · exact absurd hl (by decide)
            · rfl
            · simp [Event.isLogin] at hl
            · simp [Event.isLogin] at hl
          · push_neg at hlo
            rw [mainRun_login_fail args env hc hlo.1 hlo.2] at he
            simp at he
            rcases he with rfl | rfl
            · exact absurd hl (by decide)
            · rfl
        · rw [mainRun_copy_fail args env hc] at he
          simp at he
          rw [he] at hl
          exact absurd hl (by decide)
  · intro c
    cases h : parse_args cl with
    | error code => simp [runProgram, h]
    | ok args =>
        rw [runProgram_eq_mainRun cl env args h,
          runProgram_eq_mainRun cl { env with credential := c } args h]
        by_cases hc : env.copyExit = 0
        · by_cases hlo : args.push = true → env.loginExit = 0
          · rw [mainRun_ok args env hc hlo,
              mainRun_ok args { env with credential := c } hc hlo]
            cases hp : args.push <;> simp [Event.cmdView]
          · push_neg at hlo
            rw [mainRun_login_fail args env hc hlo.1 hlo.2,
              mainRun_login_fail args { env with credential := c } hc hlo.1
                hlo.2]
            simp [Event.cmdView]
        · rw [mainRun_copy_fail args env hc,
            mainRun_copy_fail args { env with credential := c } hc]

/-- Witness for `credential_only_on_stdin`: on a push run with
credential `"hunter2"`, the issued login event carries the fixed command
string with the credential on standard input. -/
theorem credential_only_on_stdin_witness :
    Event.shellCheck loginCmd true (some "hunter2")
      = Event.shellCheck loginCmd true
          (some (⟨0, 0, 0, 0, "hunter2"⟩ : Env).credential) :=
  (credential_only_on_stdin ⟨none, true, none⟩ ⟨0, 0, 0, 0, "hunter2"⟩).1
    (Event.shellCheck loginCmd true (some "hunter2"))
    (by simp [runProgram, parse_args, mainRun, docker_login,
      docker_login_relogin_default, from_commands_run])
    (by decide)

/-- C10: `docker_login`'s `relogin` parameter defaults to true, the
call with the default performs exactly the one unconditional login
attempt, and no run of the program ever issues the
not-currently-authenticated status probe. -/
theorem relogin_default_unconditional :
    docker_login_relogin_default = true
    ∧ (∀ env : Env, (docker_login docker_login_relogin_default env).1
        = [Event.shellCheck loginCmd true (some env.credential)])
    ∧ ∀ (cl : CmdLine) (env : Env),
        (runProgram cl env).1.all (fun e => !e.isProbe) = true := by
  refine ⟨rfl, fun env => rfl, fun cl env => ?_⟩
  cases h : parse_args cl with
  | error code => simp [runProgram, h]
  | ok args =>
      rw [runProgram_eq_mainRun cl env args h]
      by_cases hc : env.copyExit = 0
      · by_cases hlo : args.push = true → env.loginExit = 0
        · rw [mainRun_ok args env hc hlo]
          cases hp : args.push <;> simp [Event.isProbe] <;> decide
        · push_neg at hlo
          rw [mainRun_login_fail args env hc hlo.1 hlo.2]
          simp [Event.isProbe] <;> decide
      · rw [mainRun_copy_fail args env hc]
        simp [Event.isProbe] <;> decide

end DockerServerFromBinary
